import Mathlib

/-!
Verification development for the ros-rerun bridge: a shallow embedding of the
converter registry (crates/ros_rerun_types/src/converter.rs), the topology
compiler (crates/ros_rerun/src/topology.rs) and the subscription worker fan-out
(crates/ros_rerun/src/worker.rs), together with theorems settling the stated
properties of these components.
-/

namespace RosRerun

/-- Whether the first list is an initial segment of the second; model of the
byte-slice comparison performed by the Rust str method starts_with. -/
def leadsWith {α : Type} [DecidableEq α] : List α → List α → Bool
  | [], _ => true
  | _ :: _, [] => false
  | a :: as, b :: bs => a == b && leadsWith as bs

/-- Model of the Rust str method starts_with, used by fully_qualified_name. -/
def strStartsWith (s p : String) : Bool := leadsWith p.data s.data

/-- ROSTypeName (ros_rerun_types/src/lib.rs): a validated two-part ROS message
type, wrapping rclrs MessageTypeName. -/
structure ROSTypeName where
  package_name : String
  type_name : String
deriving DecidableEq, Repr

/-- Display rendering of a validated ROS type, following the pkg/msg/Name form
the crate uses when formatting type names into error payloads. -/
def ROSTypeName.display (t : ROSTypeName) : String :=
  t.package_name ++ ("/msg/") ++ t.type_name

/-- ROSTypeString (ros_rerun_types/src/lib.rs): an unchecked compile-time ROS
type constant, a pair of package and type name. -/
structure ROSTypeString where
  pkg : String
  name : String
deriving DecidableEq, Repr

/-- Display impl for ROSTypeString: ANY marker when both parts are empty,
otherwise pkg/msg/name; this string keys the negative-result memo. -/
def ROSTypeString.display (t : ROSTypeString) : String :=
  if t.pkg = "" ∧ t.name = "" then "<ANY>" else t.pkg ++ ("/msg/") ++ t.name

/-- RerunName (ros_rerun_types/src/lib.rs): the target representation a
converter produces. -/
inductive RerunName where
  | rerunArchetype (name : String)
  | rosArchetype (name : String)
  | components
deriving DecidableEq, Repr

/-- fully_qualified_name (converter.rs): a structured archetype name gets the
rerun.archetypes namespace prepended when not already present. -/
def fully_qualified_name : RerunName → RerunName
  | .rerunArchetype name =>
    if strStartsWith name ("rerun.archetypes.") then RerunName.rerunArchetype name
    else RerunName.rerunArchetype (("rerun.archetypes.") ++ name)
  | n => n

/-- ConverterError (converter.rs), with message payloads rendered as strings. -/
inductive ConverterError where
  | unsupportedConversion (name : RerunName) (ros_type : Option String)
  | invalidConfig (name : RerunName) (ros_type : String) (msg : String)
  | deserialization
  | conversion (name : RerunName) (ros_type : String) (msg : String)
deriving DecidableEq, Repr

/-- A converter prototype: an identity for the boxed trait object together with
the declared target name and optional accepted source type (the rerun_name and
ros_type methods of the Converter trait). -/
structure ConverterProto where
  id : Nat
  rerun_name : RerunName
  ros_type : Option ROSTypeString
deriving DecidableEq, Repr

/-- Association-list lookup with the newest binding first; models HashMap get
given that insertion conses the new binding in front. -/
def lookupA {κ α : Type} [DecidableEq κ] (l : List (κ × α)) (k : κ) : Option α :=
  (l.find? (fun p => p.1 == k)).map (fun p => p.2)

/-- Models HashMap contains_key over the same representation. -/
def containsA {κ α : Type} [DecidableEq κ] (l : List (κ × α)) (k : κ) : Bool :=
  (lookupA l k).isSome

/-- ConverterRegistry (converter.rs): the three converter indexes plus the
negative-result memo for source types whose definition could not be found. -/
structure ConverterRegistry where
  converters : List ((ROSTypeName × RerunName) × ConverterProto)
  converters_by_ros_type : List (ROSTypeName × ConverterProto)
  generic_converters : List (RerunName × ConverterProto)
  error_types : List (String × String)
deriving DecidableEq, Repr

/-- Registration state: the registry plus a counter of validation attempts,
that is invocations of the try_from conversion of a ROSTypeString into a
validated ROSTypeName, so the negative memo behaviour is observable. -/
structure RegState where
  reg : ConverterRegistry
  validationCalls : Nat
deriving DecidableEq, Repr

/-- The empty registry state before any registration. -/
def regEmpty : RegState := ⟨⟨[], [], [], []⟩, 0⟩

/-- Model of validating a ROSTypeString against the live schema catalog (the
rclrs try_from call); the catalog is external runtime state, so it is a
parameter. -/
def Validation : Type := ROSTypeString → Except String ROSTypeName

/-- find_converter_both (converter.rs): exact pair lookup under the qualified
target name, falling back to the generic converter for that name, otherwise an
unsupported-conversion error carrying the qualified name and the source type. -/
def find_converter_both (r : ConverterRegistry) (ros_type : ROSTypeName)
    (rerun_name : RerunName) : Except ConverterError ConverterProto :=
  let q := fully_qualified_name rerun_name
  match lookupA r.converters (ros_type, q) with
  | some c => .ok c
  | none =>
    match lookupA r.generic_converters q with
    | some c => .ok c
    | none => .error (.unsupportedConversion q (some ros_type.display))

/-- find_converter_for_generic_archetype (converter.rs). -/
def find_converter_for_generic_archetype (r : ConverterRegistry)
    (rerun_name : RerunName) : Except ConverterError ConverterProto :=
  let q := fully_qualified_name rerun_name
  match lookupA r.generic_converters q with
  | some c => .ok c
  | none => .error (.unsupportedConversion q none)

/-- find_converter_for_ros_type (converter.rs): the default converter for a
source type. -/
def find_converter_for_ros_type (r : ConverterRegistry) (ros_type : ROSTypeName) :
    Except ConverterError ConverterProto :=
  match lookupA r.converters_by_ros_type ros_type with
  | some c => .ok c
  | none =>
    .error (.unsupportedConversion (.rerunArchetype ("<ANY>")) (some ros_type.display))

/-- find_converter (converter.rs): the four-case resolution dispatch. -/
def find_converter (r : ConverterRegistry) (ros_type : Option ROSTypeName)
    (rerun_name : Option RerunName) : Except ConverterError ConverterProto :=
  match ros_type, rerun_name with
  | some t, some n => find_converter_both r t n
  | some t, none => find_converter_for_ros_type r t
  | none, some n => find_converter_for_generic_archetype r n
  | none, none => .error (.unsupportedConversion (.rerunArchetype ("<ANY>")) none)

/-- register_converter (converter.rs): validates the declared source type when
present, then indexes the prototype; on validation failure records the failure
in the negative memo keyed by the raw source-type string unless that key is
already present. The validation-call counter increments exactly where the
source performs the try_from conversion. -/
def register_converter (valid : Validation) (rerun_name : RerunName)
    (ros_type : Option ROSTypeString) (conv : ConverterProto) (s : RegState) :
    RegState :=
  match ros_type with
  | none =>
    ⟨{ s.reg with generic_converters := (rerun_name, conv) :: s.reg.generic_converters },
      s.validationCalls⟩
  | some rt =>
    let n := s.validationCalls + 1
    match valid rt with
    | .ok t =>
      let reg1 :=
        if containsA s.reg.converters_by_ros_type t then s.reg
        else { s.reg with converters_by_ros_type := (t, conv) :: s.reg.converters_by_ros_type }
      ⟨{ reg1 with converters := ((t, rerun_name), conv) :: reg1.converters }, n⟩
    | .error e =>
      if containsA s.reg.error_types rt.display then ⟨s.reg, n⟩
      else ⟨{ s.reg with error_types := (rt.display, e) :: s.reg.error_types }, n⟩

/-- The public register method (converter.rs): registers under the declared
target name and declared source type of the prototype. -/
def ConverterRegistry.register (valid : Validation) (c : ConverterProto)
    (s : RegState) : RegState :=
  register_converter valid c.rerun_name c.ros_type c s

/-- Registers a whole list of prototypes in order, starting from the empty
registry, as ConverterRegistry init does with the fixed registration list. -/
def registerAll (valid : Validation) (ps : List ConverterProto) : RegState :=
  ps.foldl (fun s c => ConverterRegistry.register valid c s) regEmpty

/-- Whether a prototype declares a source type that validates to the given
ROSTypeName. -/
def acceptsType (valid : Validation) (t : ROSTypeName) (c : ConverterProto) : Bool :=
  match c.ros_type with
  | some rt =>
    match valid rt with
    | .ok u => u == t
    | .error _ => false
  | none => false

/-- The first prototype in the registration list whose declared source type
validates to the given type. -/
def firstAccepting (valid : Validation) (ps : List ConverterProto)
    (t : ROSTypeName) : Option ConverterProto :=
  ps.find? (acceptsType valid t)

/-- TopicSource (ros_rerun config/defs.rs): a declared topic source; the
free-form converter settings table is carried as a key-value list. -/
structure TopicSource where
  topic : String
  ros_type : Option String
  archetype : String
  converter : List (String × String)
deriving DecidableEq, Repr

/-- StreamConfig (ros_rerun config/defs.rs): a declared streaming sink. -/
structure StreamConfig where
  inputs : List String
  url : String
deriving DecidableEq, Repr

/-- DBConfig (ros_rerun config/defs.rs): the archival sink declaration. -/
structure DBConfig where
  enabled : Option Bool
  data_dir : String
  inputs : List String
deriving DecidableEq, Repr

/-- Config (ros_rerun config/defs.rs), restricted to the fields the topology
compiler reads; the topics and streams maps are association lists carrying the
iteration order the compiler observes. -/
structure Config where
  topics : List (String × TopicSource)
  streams : List (String × StreamConfig)
  db : DBConfig
deriving DecidableEq, Repr

/-- ComponentID (ros_rerun topology.rs). -/
inductive ComponentID where
  | topicSubscriber (name : String)
  | grpcSink (name : String)
  | dbSink
deriving DecidableEq, Repr

/-- The derived Rust Ord on ComponentID: variant order first, then the string
fields lexicographically. BTreeMap keys are ordered by it. -/
def ComponentID.cmp : ComponentID → ComponentID → Ordering
  | .topicSubscriber a, .topicSubscriber b => compare a b
  | .topicSubscriber _, _ => .lt
  | .grpcSink _, .topicSubscriber _ => .gt
  | .grpcSink a, .grpcSink b => compare a b
  | .grpcSink _, .dbSink => .lt
  | .dbSink, .dbSink => .eq
  | .dbSink, _ => .gt

/-- BTreeMap insert over a sorted association list ordered by ComponentID.cmp,
replacing the value when the key is already present. -/
def btInsert {α : Type} (k : ComponentID) (v : α) :
    List (ComponentID × α) → List (ComponentID × α)
  | [] => [(k, v)]
  | (q, w) :: rest =>
    match k.cmp q with
    | .lt => (k, v) :: (q, w) :: rest
    | .eq => (k, v) :: rest
    | .gt => (q, w) :: btInsert k v rest

/-- BTreeMap get. -/
def btLookup {α : Type} (m : List (ComponentID × α)) (k : ComponentID) : Option α :=
  (m.find? (fun p => p.1 == k)).map (fun p => p.2)

/-- BTreeMap contains_key. -/
def btContains {α : Type} (m : List (ComponentID × α)) (k : ComponentID) : Bool :=
  (btLookup m k).isSome

/-- TopologyConfigError (ros_rerun topology.rs). -/
inductive TopologyConfigError where
  | duplicateID (name : String)
  | selfReference (id : ComponentID)
  | initializationError (id : ComponentID)
  | rerunInitializationError (id : ComponentID)
deriving DecidableEq, Repr

/-- TopologyConfig (ros_rerun topology.rs): the compiled immutable topology. -/
structure TopologyConfig where
  topic_subscriptions : List (ComponentID × TopicSource)
  grpc_sinks : List (ComponentID × String)
  db_sink : DBConfig
  edges : List (ComponentID × List ComponentID)
deriving DecidableEq, Repr

/-- Membership of a name in the seen set of the duplicate check (the HashSet
insert returning false on a repeat). -/
def memName (x : String) : List String → Bool
  | [] => false
  | y :: ys => x == y || memName x ys

/-- The loop body of check_duplicate_ids: walks the chained key lists with the
set of names already seen, erroring on the first name inserted twice. -/
def dupScan : List ComponentID → List String → Except TopologyConfigError Unit
  | [], _ => .ok ()
  | k :: rest, seen =>
    match k with
    | .topicSubscriber name =>
      if memName name seen then .error (.duplicateID name)
      else dupScan rest (name :: seen)
    | .grpcSink name =>
      if memName name seen then .error (.duplicateID name)
      else dupScan rest (name :: seen)
    | .dbSink => dupScan rest seen

/-- check_duplicate_ids (topology.rs): topic subscription keys chained with the
grpc sink keys, each in BTreeMap order. -/
def TopologyConfig.check_duplicate_ids (t : TopologyConfig) :
    Except TopologyConfigError Unit :=
  dupScan (t.topic_subscriptions.map (fun p => p.1) ++ t.grpc_sinks.map (fun p => p.1)) []

/-- The loop body of check_invalid_edges: for each sink, error on the first
source equal to the sink itself. -/
def edgeScan : List (ComponentID × List ComponentID) → Except TopologyConfigError Unit
  | [] => .ok ()
  | (sink, sources) :: rest =>
    match sources.find? (fun s => s == sink) with
    | some s => .error (.selfReference s)
    | none => edgeScan rest

/-- check_invalid_edges (topology.rs). -/
def TopologyConfig.check_invalid_edges (t : TopologyConfig) :
    Except TopologyConfigError Unit :=
  edgeScan t.edges

/-- validate (topology.rs): duplicate-ID check, then invalid-edge check, with
the question-mark early return modelled by the match. -/
def TopologyConfig.validate (t : TopologyConfig) : Except TopologyConfigError Unit :=
  match t.check_duplicate_ids with
  | .error e => .error e
  | .ok _ => t.check_invalid_edges

/-- The entry-or-default-push idiom on the edges map. -/
def btPushEdge (k : ComponentID) (v : ComponentID)
    (m : List (ComponentID × List ComponentID)) : List (ComponentID × List ComponentID) :=
  if btContains m k then
    m.map (fun p => if p.1 == k then (p.1, p.2 ++ [v]) else p)
  else btInsert k [v] m

/-- The inner loop of parse_topology_config over one stream sink input list:
an input naming a declared topic adds an edge; otherwise an input naming an
already-registered grpc sink aborts with SelfReference carrying the named sink;
any other input is skipped. -/
def streamInputsGo (ts : List (ComponentID × TopicSource))
    (gs : List (ComponentID × String)) (sink_id : ComponentID) :
    List String → List (ComponentID × List ComponentID) →
      Except TopologyConfigError (List (ComponentID × List ComponentID))
  | [], ed => .ok ed
  | input :: rest, ed =>
    if btContains ts (ComponentID.topicSubscriber input) then
      streamInputsGo ts gs sink_id rest (btPushEdge sink_id (.topicSubscriber input) ed)
    else if btContains gs (ComponentID.grpcSink input) then
      .error (.selfReference (.grpcSink input))
    else
      streamInputsGo ts gs sink_id rest ed

/-- The outer loop of parse_topology_config over the declared streams: each
stream is registered as a grpc sink before its input list is processed. -/
def streamsGo (ts : List (ComponentID × TopicSource)) :
    List (String × StreamConfig) → List (ComponentID × String) →
      List (ComponentID × List ComponentID) →
      Except TopologyConfigError
        (List (ComponentID × String) × List (ComponentID × List ComponentID))
  | [], gs, ed => .ok (gs, ed)
  | (name, stream) :: rest, gs, ed =>
    let sink_id := ComponentID.grpcSink name
    let gs1 := btInsert sink_id stream.url gs
    match streamInputsGo ts gs1 sink_id stream.inputs ed with
    | .error e => .error e
    | .ok ed1 => streamsGo ts rest gs1 ed1

/-- parse_topology_config (topology.rs): registers topic sources, selects the
archival sink inputs that resolve to declared topics, processes the stream
sinks, then validates. -/
def parse_topology_config (config : Config) :
    Except TopologyConfigError TopologyConfig :=
  let ts := config.topics.foldl
    (fun m p => btInsert (ComponentID.topicSubscriber p.1) p.2 m) []
  let db_inputs := config.db.inputs.foldl
    (fun acc input =>
      if btContains ts (ComponentID.topicSubscriber input) then
        acc ++ [ComponentID.topicSubscriber input]
      else acc) []
  let edges0 := btInsert ComponentID.dbSink db_inputs []
  match streamsGo ts config.streams [] edges0 with
  | .error e => .error e
  | .ok (gs, ed) =>
    let topo : TopologyConfig := ⟨ts, gs, config.db, ed⟩
    match topo.validate with
    | .error e => .error e
    | .ok _ => .ok topo

/-- In apply_config (topology.rs) the receiving halves are keyed exactly by the
edges-map keys, and the code removes the entry for every grpc sink and for the
database sink through an expect that asserts presence; this predicate states
that all those lookups succeed on a given topology. -/
def rx_lookup_total (t : TopologyConfig) : Bool :=
  t.grpc_sinks.all (fun p => btContains t.edges p.1) &&
    btContains t.edges ComponentID.dbSink

/-- One fan-out sending half as a subscription worker sees it: alive while the
receiving half still exists, together with the packets its channel observed. -/
structure Sender (Packet : Type) where
  alive : Bool
  queue : List Packet
deriving DecidableEq, Repr

/-- The body of the conversion task spawned per inbound message by
SubscriptionWorker (worker.rs): the loop runs over the sending halves and, in
each iteration, runs the converter on the message and on success sends the
packet; a send to a dropped receiver is logged and skipped, a conversion
failure sends nothing. Returns the updated channels and the number of
converter invocations. -/
def callbackTask {Msg Packet : Type} (convert : Msg → Option Packet) (msg : Msg) :
    List (Sender Packet) → List (Sender Packet) × Nat
  | [] => ([], 0)
  | tx :: rest =>
    let tx1 :=
      match convert msg with
      | some p => if tx.alive then { tx with queue := tx.queue ++ [p] } else tx
      | none => tx
    let r := callbackTask convert msg rest
    (tx1 :: r.1, r.2 + 1)

/-- Modelled from the spec: the ROS builtin_interfaces Time stamp carried by
the std_msgs Header (a 32-bit signed seconds field and a 32-bit unsigned
nanoseconds field); the definitions submodule sources are not present under
the crate, so the field widths follow the ROS message definitions the spec
names as the source metadata. -/
structure RosTime where
  sec : Int
  nanosec : Int
deriving DecidableEq, Repr

/-- Modelled from the spec: the std_msgs Header, the source-message metadata
field from which the packet Header is parsed. -/
structure StdMsgsHeader where
  stamp : RosTime
  frame_id : String
deriving DecidableEq, Repr

/-- The rerun TimeCell as observed through the two constructors the conversion
uses: the current time, or an explicit nanoseconds-since-epoch value. -/
inductive TimeCell where
  | timestampNow
  | timestampNanosSinceEpoch (ns : Int)
deriving DecidableEq, Repr

/-- Header (converter.rs): timestamp plus optional coordinate frame. -/
structure Header where
  time : TimeCell
  frame_id : Option String
deriving DecidableEq, Repr

/-- Wrap of an integer into the signed 64-bit range, making the Rust i64
arithmetic of the conversion explicit. -/
def i64wrap (z : Int) : Int := (z + 2 ^ 63) % 2 ^ 64 - 2 ^ 63

/-- The From impl converting a std_msgs Header into the packet Header
(converter.rs): an all-zero stamp becomes the current time, otherwise seconds
are scaled to nanoseconds and added to the nanoseconds field in 64-bit
arithmetic; an empty frame string becomes no frame. -/
def headerFromStd (h : StdMsgsHeader) : Header :=
  { time :=
      if h.stamp.sec == 0 && h.stamp.nanosec == 0 then .timestampNow
      else .timestampNanosSinceEpoch (i64wrap (h.stamp.sec * 1000000000 + h.stamp.nanosec)),
    frame_id := if h.frame_id == "" then none else some h.frame_id }

/-- A schema catalog in which exactly the std_msgs String type exists. -/
def validStd : Validation := fun rt =>
  if rt = ⟨"std_msgs", "String"⟩ then .ok ⟨"std_msgs", "String"⟩
  else .error ("type definition not found")

/-- A schema catalog in which no type definition can be found. -/
def validNone : Validation := fun _ => .error ("type definition not found")

/-- A prototype declaring the unqualified target name TextDocument and the
std_msgs String source type. -/
def convUnqualified : ConverterProto :=
  ⟨1, .rerunArchetype ("TextDocument"), some ⟨"std_msgs", "String"⟩⟩

/-- A prototype declaring the fully qualified TextDocument target name and the
std_msgs String source type, as the in-repo StdStringToTextDocument does. -/
def convQualified : ConverterProto :=
  ⟨2, .rerunArchetype ("rerun.archetypes.TextDocument"), some ⟨"std_msgs", "String"⟩⟩

/-- A generic prototype declaring the fully qualified TextDocument target name
and no source type, as the in-repo AnyToTextDocument does. -/
def convGeneric : ConverterProto :=
  ⟨3, .rerunArchetype ("rerun.archetypes.TextDocument"), none⟩

/-- A registry holding both a type-specific and a generic converter under the
qualified TextDocument name. -/
def regBoth : ConverterRegistry :=
  ⟨[((⟨"std_msgs", "String"⟩, .rerunArchetype ("rerun.archetypes.TextDocument")),
      convQualified)],
    [],
    [(.rerunArchetype ("rerun.archetypes.TextDocument"), convGeneric)],
    []⟩

/-- The state after registering the unqualified-name prototype in the catalog
where its source type validates. -/
def regUnqual : RegState := ConverterRegistry.register validStd convUnqualified regEmpty

/-- The state after one registration attempt whose source type fails
validation. -/
def regFail1 : RegState := ConverterRegistry.register validNone convUnqualified regEmpty

/-- The state after a second identical failing registration attempt. -/
def regFail2 : RegState := ConverterRegistry.register validNone convUnqualified regFail1

/-- A declared topic source named by the repository test fixtures. -/
def tsrcA : TopicSource :=
  ⟨"example_topic", some ("std_msgs/String"), "TextLog", []⟩

/-- An archival sink declaration with no inputs. -/
def dbEmpty : DBConfig := ⟨none, "", []⟩

/-- A configuration with a duplicated name (topic a and stream a) and a stream
b listing itself, a declared stream sink, as an input. -/
def cfgDupAndSink : Config :=
  ⟨[("a", tsrcA)], [("a", ⟨[], "u"⟩), ("b", ⟨["b"], "u"⟩)], dbEmpty⟩

/-- The duplicate-detection fixture of the spec: a topic named a and a stream
named a. -/
def cfgDupSimple : Config := ⟨[("a", tsrcA)], [("a", ⟨[], "u"⟩)], dbEmpty⟩

/-- A stream s1 naming the stream s2 that is declared after it. -/
def cfgForwardRef : Config :=
  ⟨[], [("s1", ⟨["s2"], "u"⟩), ("s2", ⟨[], "u"⟩)], dbEmpty⟩

/-- The topology that cfgForwardRef compiles to: both sinks registered, the
forward input silently dropped, no edge entry for s1. -/
def topoForwardRef : TopologyConfig :=
  ⟨[], [(.grpcSink ("s1"), "u"), (.grpcSink ("s2"), "u")], dbEmpty, [(.dbSink, [])]⟩

/-- A stream s1 listing itself as an input. -/
def cfgSelfRef : Config := ⟨[], [("s1", ⟨["s1"], "u"⟩)], dbEmpty⟩

/-- A topic a plus a stream s1 with an empty input list, the shape of the
repository valid_topology test. -/
def cfgEmptyInputs : Config := ⟨[("a", tsrcA)], [("s1", ⟨[], "u"⟩)], dbEmpty⟩

/-- The topology cfgEmptyInputs compiles to: the grpc sink has no entry in the
edges map. -/
def topoEmptyInputs : TopologyConfig :=
  ⟨[(.topicSubscriber ("a"), tsrcA)], [(.grpcSink ("s1"), "u")], dbEmpty, [(.dbSink, [])]⟩

/-- A topology whose database sink lists itself among its sources, so the
invalid-edge check fires while the duplicate check passes. -/
def topoSelfEdge : TopologyConfig := ⟨[], [], dbEmpty, [(.dbSink, [.dbSink])]⟩

theorem lookupA_cons {κ α : Type} [DecidableEq κ] (k : κ) (v : α)
    (l : List (κ × α)) (j : κ) :
    lookupA ((k, v) :: l) j = if k = j then some v else lookupA l j := by
  simp only [lookupA, List.find?]
  by_cases h : k = j
  · simp [h]
  · simp [h, beq_eq_false_iff_ne.mpr h]

theorem leadsWith_self_append {α : Type} [DecidableEq α] (p r : List α) :
    leadsWith p (p ++ r) = true := by
  induction p with
  | nil => simp [leadsWith]
  | cons a as ih => simp [leadsWith, ih]

theorem strStartsWith_self_append (p s : String) :
    strStartsWith (p ++ s) p = true := by
  unfold strStartsWith
  rw [String.data_append]
  exact leadsWith_self_append p.data s.data

theorem dupScan_error_is_duplicate (ks : List ComponentID) (seen : List String)
    (e : TopologyConfigError) (h : dupScan ks seen = .error e) :
    ∃ n, e = .duplicateID n := by
  induction ks generalizing seen with
  | nil => simp [dupScan] at h
  | cons k rest ih =>
    cases k with
    | topicSubscriber name =>
      cases hn : memName name seen with
      | true =>
        refine ⟨name, ?_⟩
        simp [dupScan, hn] at h
        exact h.symm
      | false =>
        simp only [dupScan, hn, Bool.false_eq_true, if_false] at h
        exact ih _ h
    | grpcSink name =>
      cases hn : memName name seen with
      | true =>
        refine ⟨name, ?_⟩
        simp [dupScan, hn] at h
        exact h.symm
      | false =>
        simp only [dupScan, hn, Bool.false_eq_true, if_false] at h
        exact ih _ h
    | dbSink =>
      simp only [dupScan] at h
      exact ih _ h

theorem register_default_lookup_step (valid : Validation) (c : ConverterProto)
    (s : RegState) (t : ROSTypeName) :
    lookupA (ConverterRegistry.register valid c s).reg.converters_by_ros_type t =
      (lookupA s.reg.converters_by_ros_type t).or
        (if acceptsType valid t c then some c else none) := by
  unfold ConverterRegistry.register register_converter acceptsType
  cases hrt : c.ros_type with
  | none => simp
  | some rt =>
    cases hv : valid rt with
    | error e =>
      by_cases hm : containsA s.reg.error_types rt.display = true
      · simp [hv, hm]
      · simp [hv, hm]
    | ok u =>
      by_cases hu : u = t
      · subst hu
        by_cases hc : containsA s.reg.converters_by_ros_type u = true
        · have hs : (lookupA s.reg.converters_by_ros_type u).isSome = true := hc
          obtain ⟨w, hw⟩ := Option.isSome_iff_exists.mp hs
          simp [hv, hc, hw]
        · have hs : lookupA s.reg.converters_by_ros_type u = none := by
            have := Option.not_isSome_iff_eq_none.mp (by simpa [containsA] using hc)
            exact this
          simp [hv, hc, hs, lookupA_cons]
      · have hbn : (u == t) = false := beq_eq_false_iff_ne.mpr hu
        by_cases hc : containsA s.reg.converters_by_ros_type u = true
        · simp [hv, hc, hbn]
        · simp only [hv, hc, Bool.false_eq_true, if_false, hbn]
          simp [lookupA_cons]
          intro h
          exact absurd h hu

theorem registerFold_default_lookup (valid : Validation) (ps : List ConverterProto)
    (s : RegState) (t : ROSTypeName) :
    lookupA (ps.foldl (fun s c => ConverterRegistry.register valid c s) s).reg.converters_by_ros_type t =
      (lookupA s.reg.converters_by_ros_type t).or (firstAccepting valid ps t) := by
  induction ps generalizing s with
  | nil => simp [firstAccepting]
  | cons c ps ih =>
    rw [List.foldl_cons, ih, register_default_lookup_step]
    unfold firstAccepting
    rw [List.find?_cons]
    by_cases hacc : acceptsType valid t c = true
    · simp [hacc, Option.or_assoc]
    · simp only [Bool.not_eq_true] at hacc
      simp [hacc, firstAccepting]

/-- C9: target-name qualification is idempotent, and qualifying the unqualified
TextDocument gives the same value as qualifying the already qualified
rerun.archetypes.TextDocument. -/
theorem fully_qualified_name_idempotent :
    (∀ n, fully_qualified_name (fully_qualified_name n) = fully_qualified_name n) ∧
    fully_qualified_name (.rerunArchetype ("TextDocument")) =
      fully_qualified_name (.rerunArchetype ("rerun.archetypes.TextDocument")) := by
  constructor
  · intro n
    cases n with
    | rerunArchetype s =>
      by_cases h : strStartsWith s ("rerun.archetypes.") = true
      · simp [fully_qualified_name, h]
      · simp only [Bool.not_eq_true] at h
        simp [fully_qualified_name, h, strStartsWith_self_append]
    | rosArchetype s => rfl
    | components => rfl
  · decide

/-- C1: find_converter implements the four-case resolution contract: with both
arguments, the exact (source type, qualified target) entry wins over the
generic converter for the qualified target, absence of both yields an
unsupported-conversion error carrying the qualified target and the source
type, and with neither argument it always fails with the ANY marker and no
source type. -/
theorem find_converter_resolution_contract (r : ConverterRegistry)
    (t : ROSTypeName) (a : RerunName) :
    (∀ c, lookupA r.converters (t, fully_qualified_name a) = some c →
      find_converter r (some t) (some a) = .ok c) ∧
    (lookupA r.converters (t, fully_qualified_name a) = none →
      ∀ g, lookupA r.generic_converters (fully_qualified_name a) = some g →
        find_converter r (some t) (some a) = .ok g) ∧
    (lookupA r.converters (t, fully_qualified_name a) = none →
      lookupA r.generic_converters (fully_qualified_name a) = none →
      find_converter r (some t) (some a) =
        .error (.unsupportedConversion (fully_qualified_name a) (some t.display))) ∧
    find_converter r none none =
      .error (.unsupportedConversion (.rerunArchetype ("<ANY>")) none) := by
  refine ⟨?_, ?_, ?_, rfl⟩
  · intro c hc
    simp [find_converter, find_converter_both, hc]
  · intro hc g hg
    simp [find_converter, find_converter_both, hc, hg]
  · intro hc hg
    simp [find_converter, find_converter_both, hc, hg]

/-- Witness for C1: in a registry holding both a type-specific converter and a
generic converter under the qualified TextDocument name, resolution with both
arguments returns the type-specific one. -/
theorem find_converter_resolution_contract_witness :
    find_converter regBoth (some ⟨"std_msgs", "String"⟩)
        (some (.rerunArchetype ("TextDocument"))) = .ok convQualified := by
  have h := find_converter_resolution_contract regBoth ⟨"std_msgs", "String"⟩
    (.rerunArchetype ("TextDocument"))
  exact h.1 convQualified (by decide)

/-- C3 counterexample: registering a prototype that declares the unqualified
target name TextDocument with a source type that validates, then resolving
with that source type and either the declared name or its qualified form,
fails with UnsupportedConversion instead of finding the converter, because
registration stores the declared name verbatim while resolution qualifies. -/
theorem register_unqualified_lookup_misses :
    find_converter regUnqual.reg (some ⟨"std_msgs", "String"⟩)
        (some (.rerunArchetype ("TextDocument"))) =
      .error (.unsupportedConversion (.rerunArchetype ("rerun.archetypes.TextDocument"))
        (some ("std_msgs/msg/String"))) ∧
    find_converter regUnqual.reg (some ⟨"std_msgs", "String"⟩)
        (some (.rerunArchetype ("rerun.archetypes.TextDocument"))) =
      .error (.unsupportedConversion (.rerunArchetype ("rerun.archetypes.TextDocument"))
        (some ("std_msgs/msg/String"))) := by
  constructor
  · rfl
  · rfl

/-- C3 (amended): resolution qualifies the target name but registration stores
the declared name verbatim, so a successfully registered converter is found by
find_converter, under the declared name or its qualified form, exactly when the
declared name is invariant under qualification, as the names of all in-repo
converters are. -/
theorem register_qualified_name_found (valid : Validation) (s : RegState)
    (c : ConverterProto) (rt : ROSTypeString) (t : ROSTypeName)
    (hdecl : c.ros_type = some rt) (hval : valid rt = .ok t)
    (hq : fully_qualified_name c.rerun_name = c.rerun_name) :
    find_converter (ConverterRegistry.register valid c s).reg (some t)
        (some c.rerun_name) = .ok c ∧
    find_converter (ConverterRegistry.register valid c s).reg (some t)
        (some (fully_qualified_name c.rerun_name)) = .ok c := by
  have hmain : find_converter (ConverterRegistry.register valid c s).reg (some t)
      (some c.rerun_name) = .ok c := by
    unfold ConverterRegistry.register register_converter
    rw [hdecl]
    simp only [hval]
    by_cases hc : containsA s.reg.converters_by_ros_type t = true
    · simp [find_converter, find_converter_both, hc, hq, lookupA_cons]
    · simp only [Bool.not_eq_true] at hc
      simp [find_converter, find_converter_both, hc, hq, lookupA_cons]
  exact ⟨hmain, by rw [hq]; exact hmain⟩

/-- Witness for C3 (amended): registering the qualified-name prototype makes
resolution with its source type and declared name succeed. -/
theorem register_qualified_name_found_witness :
    find_converter (ConverterRegistry.register validStd convQualified regEmpty).reg
        (some ⟨"std_msgs", "String"⟩) (some convQualified.rerun_name) =
      .ok convQualified := by
  exact (register_qualified_name_found validStd regEmpty convQualified
    ⟨"std_msgs", "String"⟩ ⟨"std_msgs", "String"⟩ rfl (by rfl) (by decide)).1

/-- C8: after any registration sequence the default converter for a source
type is the first successfully validated prototype accepting it, later
registrations never displace it, and resolution with only the source type
returns it, or fails with the ANY target marker and that source type when no
registered prototype accepts the type. -/
theorem default_converter_first_registration_wins (valid : Validation)
    (ps : List ConverterProto) (t : ROSTypeName) :
    lookupA (registerAll valid ps).reg.converters_by_ros_type t =
      firstAccepting valid ps t ∧
    (∀ c, firstAccepting valid ps t = some c →
      find_converter (registerAll valid ps).reg (some t) none = .ok c) ∧
    (firstAccepting valid ps t = none →
      find_converter (registerAll valid ps).reg (some t) none =
        .error (.unsupportedConversion (.rerunArchetype ("<ANY>")) (some t.display))) := by
  have hlook : lookupA (registerAll valid ps).reg.converters_by_ros_type t =
      firstAccepting valid ps t := by
    unfold registerAll
    rw [registerFold_default_lookup]
    simp [regEmpty, lookupA]
  refine ⟨hlook, ?_, ?_⟩
  · intro c hc
    simp [find_converter, find_converter_for_ros_type, hlook, hc]
  · intro hc
    simp [find_converter, find_converter_for_ros_type, hlook, hc]

/-- Witness for C8: with two prototypes accepting the std_msgs String type,
resolution by source type alone returns the first one registered. -/
theorem default_converter_first_registration_wins_witness :
    find_converter (registerAll validStd [convQualified, convUnqualified]).reg
        (some ⟨"std_msgs", "String"⟩) none = .ok convQualified := by
  exact (default_converter_first_registration_wins validStd
    [convQualified, convUnqualified] ⟨"std_msgs", "String"⟩).2.1 convQualified (by rfl)

/-- C5 counterexample: after a failing registration, a second identical
registration attempt performs the validation again, so the validation-call
counter reaches two, not one; only the memo write is suppressed. -/
theorem second_registration_revalidates :
    regFail2.validationCalls = 2 ∧ regFail2.validationCalls ≠ 1 := by
  exact ⟨rfl, by decide⟩

/-- C5 (amended): registering a prototype whose source type fails validation
surfaces no error; the first failure is recorded in the memo keyed by the raw
source-type string, and once the key is present a later identical attempt
leaves the whole registry, the memo included, unchanged, although its
validation does run again, as the incremented call counter shows. -/
theorem negative_memo_first_writer_wins (valid : Validation) (rn : RerunName)
    (rt : ROSTypeString) (c : ConverterProto) (s : RegState) (e : String)
    (hval : valid rt = .error e) :
    (containsA s.reg.error_types rt.display = false →
      register_converter valid rn (some rt) c s =
        ⟨{ s.reg with error_types := (rt.display, e) :: s.reg.error_types },
          s.validationCalls + 1⟩) ∧
    (containsA s.reg.error_types rt.display = true →
      register_converter valid rn (some rt) c s = ⟨s.reg, s.validationCalls + 1⟩) := by
  constructor
  · intro hm
    unfold register_converter
    simp [hval, hm]
  · intro hm
    unfold register_converter
    simp [hval, hm]

/-- Witness for C5 (amended): the second failing attempt on the same source
type leaves the registry of the first failure unchanged while the call counter
still increments to two. -/
theorem negative_memo_first_writer_wins_witness :
    register_converter validNone (RerunName.rerunArchetype ("TextDocument"))
        (some ⟨"std_msgs", "String"⟩) convUnqualified regFail1 =
      ⟨regFail1.reg, 2⟩ := by
  have h := negative_memo_first_writer_wins validNone
    (.rerunArchetype ("TextDocument")) ⟨"std_msgs", "String"⟩ convUnqualified
    regFail1 ("type definition not found") rfl
  exact (h.2 (by rfl)).trans (by rfl)

/-- C2 counterexample: with two connected senders the conversion task runs the
converter twice, once per sending half, not exactly once per message. -/
theorem converter_runs_once_per_sender :
    (callbackTask (fun _ : Nat => some (0 : Nat)) 0 [⟨true, []⟩, ⟨true, []⟩]).2 = 2 ∧
    (callbackTask (fun _ : Nat => some (0 : Nat)) 0 [⟨true, []⟩, ⟨true, []⟩]).2 ≠ 1 := by
  exact ⟨rfl, by decide⟩

/-- C2 (amended): the conversion task runs the converter once per connected
sender; when conversion succeeds every live channel observes exactly one new
packet for the message while a dropped receiver is skipped without affecting
the deliveries to the remaining channels, and when conversion fails nothing is
delivered anywhere. -/
theorem fanout_per_sender_conversion {Msg Packet : Type} (convert : Msg → Option Packet)
    (msg : Msg) (senders : List (Sender Packet)) :
    (callbackTask convert msg senders).2 = senders.length ∧
    (∀ p, convert msg = some p →
      (callbackTask convert msg senders).1 =
        senders.map (fun s => if s.alive then ⟨s.alive, s.queue ++ [p]⟩ else s)) ∧
    (convert msg = none → (callbackTask convert msg senders).1 = senders) := by
  induction senders with
  | nil =>
    refine ⟨rfl, ?_, ?_⟩
    · intro p _
      rfl
    · intro _
      rfl
  | cons s ss ih =>
    refine ⟨?_, ?_, ?_⟩
    · simp [callbackTask, ih.1]
    · intro p hp
      simp only [callbackTask, hp, List.map_cons]
      rw [ih.2.1 p hp]
    · intro hp
      simp only [callbackTask, hp, List.map_cons]
      rw [ih.2.2 hp]

/-- Witness for C2 (amended): one live and one dropped sender; the live channel
observes the packet, the dropped one does not, and the converter ran twice. -/
theorem fanout_per_sender_conversion_witness :
    (callbackTask (fun _ : Nat => some (5 : Nat)) 0 [⟨true, []⟩, ⟨false, []⟩]).1 =
      [⟨true, [5]⟩, ⟨false, []⟩] ∧
    (callbackTask (fun _ : Nat => some (5 : Nat)) 0 [⟨true, []⟩, ⟨false, []⟩]).2 = 2 := by
  have h := fanout_per_sender_conversion (fun _ : Nat => some (5 : Nat)) 0
    [⟨true, []⟩, ⟨false, []⟩]
  constructor
  · rw [h.2.1 5 rfl]
    rfl
  · rw [h.1]
    rfl

/-- C4 counterexample: a configuration with both a duplicated name (topic a
and stream a) and a stream b listing a declared stream sink as an input fails
with SelfReference, not DuplicateID: the sink-input check inside the stream
loop runs before validate ever checks for duplicates. -/
theorem self_reference_preempts_duplicate :
    parse_topology_config cfgDupAndSink =
      .error (.selfReference (.grpcSink ("b"))) ∧
    parse_topology_config cfgDupAndSink ≠ .error (.duplicateID ("a")) := by
  have h1 : parse_topology_config cfgDupAndSink =
      .error (.selfReference (.grpcSink ("b"))) := by rfl
  refine ⟨h1, ?_⟩
  intro h
  rw [h1] at h
  exact TopologyConfigError.noConfusion (Except.error.inj h)

/-- C4 (amended): duplicate-ID detection precedes the self-reference check of
validate, so the spec fixture of a topic a plus a stream a fails with
DuplicateID a; but a SelfReference raised inside the stream-input loop of
parse_topology_config preempts the duplicate check, so the ordering only holds
for configurations whose stream loop completes. -/
theorem duplicate_check_precedes_validate_self_reference :
    parse_topology_config cfgDupSimple = .error (.duplicateID ("a")) ∧
    (∀ (t : TopologyConfig) (c : ComponentID),
      t.validate = .error (.selfReference c) → t.check_duplicate_ids = .ok ()) := by
  refine ⟨by rfl, ?_⟩
  intro t c h
  cases hd : t.check_duplicate_ids with
  | ok u =>
    cases u
    rfl
  | error e =>
    exfalso
    unfold TopologyConfig.validate at h
    rw [hd] at h
    have he : e = TopologyConfigError.selfReference c := Except.error.inj h
    have hd1 : dupScan
        (t.topic_subscriptions.map (fun p => p.1) ++ t.grpc_sinks.map (fun p => p.1)) [] =
        .error e := hd
    obtain ⟨n, hn⟩ := dupScan_error_is_duplicate _ _ _ hd1
    rw [hn] at he
    exact TopologyConfigError.noConfusion he

/-- Witness for C4 (amended): a topology whose only defect is a self edge on
the database sink passes the duplicate check while validate reports the self
reference. -/
theorem duplicate_check_precedes_validate_self_reference_witness :
    topoSelfEdge.validate = .error (.selfReference .dbSink) ∧
    topoSelfEdge.check_duplicate_ids = .ok () := by
  refine ⟨by rfl, ?_⟩
  exact duplicate_check_precedes_validate_self_reference.2 topoSelfEdge .dbSink (by rfl)

/-- C6 counterexample: a stream s1 naming the stream sink s2, declared after
it, compiles successfully with that input silently dropped (no edge entry for
s1 is created), instead of failing with SelfReference as stated. -/
theorem forward_sink_reference_compiles :
    parse_topology_config cfgForwardRef = .ok topoForwardRef ∧
    parse_topology_config cfgForwardRef ≠
      .error (.selfReference (.grpcSink ("s2"))) ∧
    btLookup topoForwardRef.edges (.grpcSink ("s1")) = none := by
  have h1 : parse_topology_config cfgForwardRef = .ok topoForwardRef := by rfl
  refine ⟨h1, ?_, by rfl⟩
  intro h
  rw [h1] at h
  exact Except.noConfusion h

/-- C6 (amended): an input naming itself, or any stream sink already processed
at that point of the stream loop, fails with SelfReference carrying the named
sink; an input naming neither a declared topic nor an already-processed sink,
a later-declared sink included, is silently skipped and creates no edge. -/
theorem self_input_detected_in_processing_order :
    parse_topology_config cfgSelfRef =
      .error (.selfReference (.grpcSink ("s1"))) ∧
    (∀ ts gs sink inputs ed input,
      btContains ts (ComponentID.topicSubscriber input) = false →
      btContains gs (ComponentID.grpcSink input) = true →
      streamInputsGo ts gs sink (input :: inputs) ed =
        .error (.selfReference (.grpcSink input))) ∧
    (∀ ts gs sink inputs ed input,
      btContains ts (ComponentID.topicSubscriber input) = false →
      btContains gs (ComponentID.grpcSink input) = false →
      streamInputsGo ts gs sink (input :: inputs) ed =
        streamInputsGo ts gs sink inputs ed) := by
  refine ⟨by rfl, ?_, ?_⟩
  · intro ts gs sink inputs ed input h1 h2
    simp [streamInputsGo, h1, h2]
  · intro ts gs sink inputs ed input h1 h2
    simp [streamInputsGo, h1, h2]

/-- Witness for C6 (amended): with the sink s1 already registered, the input
s1 of the same sink aborts with SelfReference naming s1. -/
theorem self_input_detected_in_processing_order_witness :
    streamInputsGo [] [(.grpcSink ("s1"), "u")] (.grpcSink ("s1")) ["s1"] [] =
      .error (.selfReference (.grpcSink ("s1"))) := by
  exact self_input_detected_in_processing_order.2.1 [] [(.grpcSink ("s1"), "u")]
    (.grpcSink ("s1")) [] [] ("s1") (by rfl) (by rfl)

/-- C7: evidence that the apply_config channel lookup can fail: the repository
test fixture shape, a topic a plus a stream s1 with an empty input list,
parses successfully, yet the resulting topology has no edges entry for the
grpc sink s1, so the expect on the receiver map for that sink panics; only the
database sink entry is unconditionally present. -/
theorem grpc_sink_without_resolvable_inputs_lacks_channel :
    parse_topology_config cfgEmptyInputs = .ok topoEmptyInputs ∧
    btContains topoEmptyInputs.edges (.grpcSink ("s1")) = false ∧
    rx_lookup_total topoEmptyInputs = false ∧
    btContains topoEmptyInputs.edges ComponentID.dbSink = true := by
  exact ⟨by rfl, by rfl, by rfl, by rfl⟩

/-- C10: converting a source message header: an all-zero stamp becomes the
current time; otherwise the timestamp is exactly sec scaled to nanoseconds
plus nanosec, with no wraparound in the 64-bit arithmetic given the 32-bit
field ranges; the frame is absent exactly when the source frame string is
empty and is that string otherwise. -/
theorem header_conversion_contract (h : StdMsgsHeader)
    (h1 : -(2 ^ 31) ≤ h.stamp.sec) (h2 : h.stamp.sec < 2 ^ 31)
    (h3 : 0 ≤ h.stamp.nanosec) (h4 : h.stamp.nanosec < 2 ^ 32) :
    (h.stamp.sec = 0 ∧ h.stamp.nanosec = 0 →
      (headerFromStd h).time = .timestampNow) ∧
    (¬(h.stamp.sec = 0 ∧ h.stamp.nanosec = 0) →
      (headerFromStd h).time =
        .timestampNanosSinceEpoch (h.stamp.sec * 1000000000 + h.stamp.nanosec)) ∧
    ((headerFromStd h).frame_id = none ↔ h.frame_id = "") ∧
    (h.frame_id ≠ "" → (headerFromStd h).frame_id = some h.frame_id) := by
  refine ⟨?_, ?_, ?_, ?_⟩
  · intro hz
    simp [headerFromStd, hz.1, hz.2]
  · intro hnz
    have hb : ¬((h.stamp.sec == 0 && h.stamp.nanosec == 0) = true) := by
      simpa [Bool.and_eq_true, beq_iff_eq] using hnz
    have hw : i64wrap (h.stamp.sec * 1000000000 + h.stamp.nanosec) =
        h.stamp.sec * 1000000000 + h.stamp.nanosec := by
      unfold i64wrap
      omega
    simp [headerFromStd, hb, hw]
  · by_cases hf : h.frame_id = ""
    · simp [headerFromStd, hf]
    · have hbf : (h.frame_id == "") = false := beq_eq_false_iff_ne.mpr hf
      simp [headerFromStd, hbf, hf]
  · intro hf
    have hbf : (h.frame_id == "") = false := beq_eq_false_iff_ne.mpr hf
    simp [headerFromStd, hbf]

/-- Witness for C10: a stamp of one second and two nanoseconds with frame map
converts to the exact nanosecond timestamp and that frame. -/
theorem header_conversion_contract_witness :
    (headerFromStd ⟨⟨1, 2⟩, "map"⟩).time = .timestampNanosSinceEpoch 1000000002 ∧
    (headerFromStd ⟨⟨1, 2⟩, "map"⟩).frame_id = some ("map") := by
  have h := header_conversion_contract ⟨⟨1, 2⟩, "map"⟩ (by norm_num) (by norm_num)
    (by norm_num) (by norm_num)
  constructor
  · have := h.2.1 (by simp)
    simpa using this
  · exact h.2.2.2 (by simp)

end RosRerun
